import Mathlib

set_option maxHeartbeats 1000000
set_option linter.unusedVariables false

/-!
Shallow embedding of the sales-record keeper in
`p01_sales_g08/p01sc02_function_files/p01_m_sales_g08.py` (the "g08" module)
and its sibling `p01beg_m_sales.py` (the "beg" module).

Python strings are modelled as lists of characters (`PyStr`); Python floats
are idealised as rationals (`ℚ`); statements that can raise are modelled in
an `Except PyErr` monad whose errors mirror the Python exceptions that can
actually occur on the traced paths.
-/

/-- Python strings, modelled as lists of characters. -/
abbrev PyStr := List Char

/-- Build a `PyStr` from a Lean string literal. -/
def pstr (s : String) : PyStr := s.toList

/-- The Python exceptions that can occur in the embedded code. -/
inductive PyErr where
  | valueError
  | indexError
  | fileNotFound
deriving DecidableEq

/-- ASCII digit test (model of `str.isdigit` for single characters). -/
def isDigitCh (c : Char) : Bool := '0' ≤ c && c ≤ '9'

/-- Model of Python `str.isdigit`: nonempty and all ASCII digits.
(Non-ASCII digit characters are outside the model.) -/
def strIsdigit (s : PyStr) : Bool := !s.isEmpty && s.all isDigitCh

/-- Numeric value of a digit character. -/
def digitVal (c : Char) : Nat := c.toNat - '0'.toNat

/-- `int()` applied to a string of digits. -/
def digitsToNat (s : PyStr) : Nat := s.foldl (fun a c => a * 10 + digitVal c) 0

/-- `is_leap_year` from the source (identical in both modules). -/
def is_leap_year (year : Int) : Bool :=
  if year % 400 == 0 then true
  else if year % 100 == 0 then false
  else if year % 4 == 0 then true
  else false

/-- `cal_max_day` from the source (identical in both modules). -/
def cal_max_day (year month : Int) : Int :=
  if is_leap_year year && month == 2 then 29
  else if month == 2 then 28
  else if month == 4 || month == 6 || month == 9 || month == 11 then 30
  else 31

/-- `cal_quarter` from the source (identical in both modules). -/
def cal_quarter (month : Int) : Int :=
  if month == 1 || month == 2 || month == 3 then 1
  else if month == 4 || month == 5 || month == 6 then 2
  else if month == 7 || month == 8 || month == 9 then 3
  else if month == 10 || month == 11 || month == 12 then 4
  else 0

/-- C8: `is_leap_year` implements the Gregorian rule (divisible by 400, or by 4
but not by 100), and for months 1..12 `cal_max_day` returns 29 for February of
a leap year, 28 for other Februaries, 30 for April/June/September/November and
31 otherwise. -/
theorem C8_leap_year_and_max_day (y m : Int) (h1 : 1 ≤ m) (h2 : m ≤ 12) :
    (is_leap_year y = true ↔ ((400 : Int) ∣ y ∨ ((4 : Int) ∣ y ∧ ¬ (100 : Int) ∣ y))) ∧
    cal_max_day y m =
      (if m = 2 then
        (if (400 : Int) ∣ y ∨ ((4 : Int) ∣ y ∧ ¬ (100 : Int) ∣ y) then 29 else 28)
       else if m = 4 ∨ m = 6 ∨ m = 9 ∨ m = 11 then 30 else 31) := by
  have hleap : is_leap_year y = true ↔
      ((400 : Int) ∣ y ∨ ((4 : Int) ∣ y ∧ ¬ (100 : Int) ∣ y)) := by
    simp only [is_leap_year, beq_iff_eq]
    split_ifs with ha hb hc <;> simp <;> omega
  refine ⟨hleap, ?_⟩
  simp only [cal_max_day, Bool.and_eq_true, beq_iff_eq]
  by_cases hm2 : m = 2
  · by_cases hl : is_leap_year y = true
    · rw [if_pos ⟨hl, by simpa using hm2⟩, if_pos hm2, if_pos (hleap.mp hl)]
    · rw [if_neg (by simp [hl]), if_pos (by simpa using hm2), if_pos hm2,
        if_neg (fun h => hl (hleap.mpr h))]
  · rw [if_neg (by simp [hm2]), if_neg (by simpa using hm2), if_neg hm2]
    by_cases h30 : m = 4 ∨ m = 6 ∨ m = 9 ∨ m = 11
    · rw [if_pos (by rcases h30 with h | h | h | h <;> simp [h]), if_pos h30]
    · rw [if_neg (by simp only [Bool.or_eq_true, beq_iff_eq]; tauto), if_neg h30]

/-- Witness for C8 at a concrete input: February 2024 (a leap year) has 29 days. -/
theorem C8_leap_year_and_max_day_witness :
    (is_leap_year 2024 = true ↔
      ((400 : Int) ∣ 2024 ∨ ((4 : Int) ∣ 2024 ∧ ¬ (100 : Int) ∣ 2024))) ∧
    cal_max_day 2024 2 =
      (if (2 : Int) = 2 then
        (if (400 : Int) ∣ 2024 ∨ ((4 : Int) ∣ 2024 ∧ ¬ (100 : Int) ∣ 2024) then 29 else 28)
       else if (2 : Int) = 4 ∨ (2 : Int) = 6 ∨ (2 : Int) = 9 ∨ (2 : Int) = 11 then 30
       else 31) :=
  C8_leap_year_and_max_day 2024 2 (by decide) (by decide)

/-- C9: `cal_quarter` maps months 1-3 to quarter 1, 4-6 to 2, 7-9 to 3,
10-12 to 4, and every integer outside [1,12] to the sentinel 0. -/
theorem C9_quarter_of_month (m : Int) :
    (cal_quarter m = 1 ↔ (m = 1 ∨ m = 2 ∨ m = 3)) ∧
    (cal_quarter m = 2 ↔ (m = 4 ∨ m = 5 ∨ m = 6)) ∧
    (cal_quarter m = 3 ↔ (m = 7 ∨ m = 8 ∨ m = 9)) ∧
    (cal_quarter m = 4 ↔ (m = 10 ∨ m = 11 ∨ m = 12)) ∧
    (cal_quarter m = 0 ↔ (m < 1 ∨ 12 < m)) := by
  simp only [cal_quarter, Bool.or_eq_true, beq_iff_eq]
  split_ifs with h1 h2 h3 h4 <;> simp_all <;> omega

/-- Model of `str.lower` on a single character (ASCII range; the region codes
and filenames handled by the program are ASCII). -/
def lowerChar (c : Char) : Char :=
  if 'A' ≤ c && c ≤ 'Z' then Char.ofNat (c.toNat + 32) else c

/-- Model of `str.lower`. -/
def pyLower (s : PyStr) : PyStr := s.map lowerChar

/-- The `VALID_REGIONS` dictionary (identical in both modules). -/
def VALID_REGIONS : List (PyStr × PyStr) :=
  [(pstr "w", pstr "West"), (pstr "m", pstr "Mountain"),
   (pstr "c", pstr "Central"), (pstr "e", pstr "East")]

/-- `is_valid_region` from the source: case-insensitive key membership. -/
def is_valid_region (region_code : PyStr) : Bool :=
  (VALID_REGIONS.lookup (pyLower region_code)).isSome

/-- `get_region_name` from the source: `VALID_REGIONS.get(code.lower(), "INVALID")`. -/
def get_region_name (region_code : PyStr) : PyStr :=
  match VALID_REGIONS.lookup (pyLower region_code) with
  | some name => name
  | none => pstr "INVALID"

/-- The `NAMING_CONVENTION` constant `"sales_qn_yyyy_r.csv"`. -/
def NAMING_CONVENTION : PyStr := pstr "sales_qn_yyyy_r.csv"

/-- `is_valid_filename_format` from the source.  The Python body is a single
short-circuited conjunction whose first clause checks the length, so the
direct index accesses `filename[8]` and `filename[13]` are only evaluated on
strings of length 19 and never raise; the total function below is therefore
extensionally the Python function.  `filename[-4:]` is the last-4 slice, which
never raises. -/
def is_valid_filename_format (filename : PyStr) : Bool :=
  filename.length == NAMING_CONVENTION.length &&
  filename.take 7 == NAMING_CONVENTION.take 7 &&
  filename.getD 8 ' ' == NAMING_CONVENTION.getD 8 ' ' &&
  filename.getD 13 ' ' == NAMING_CONVENTION.getD (NAMING_CONVENTION.length - 6) ' ' &&
  filename.drop (filename.length - 4) == NAMING_CONVENTION.drop (NAMING_CONVENTION.length - 4)

/-- `get_region_code` from the source: `sales_filename[-5].lower()` when the
shape is valid (a length-19 string, so index `-5` is index 14 and never
raises), `"INVALID"` otherwise. -/
def get_region_code (sales_filename : PyStr) : PyStr :=
  if is_valid_filename_format sales_filename then
    [lowerChar (sales_filename.getD (sales_filename.length - 5) ' ')]
  else pstr "INVALID"

/-- C6: `is_valid_filename_format` accepts exactly the strings of length 19
with prefix `sales_q`, separators at positions 8 and 13 and extension `.csv`;
`get_region_code` returns the lower-cased character right before the extension
for a valid shape and `"INVALID"` otherwise; and the three concrete examples
from the spec behave as stated. -/
theorem C6_filename_shape_and_region_code (s : PyStr) :
    (is_valid_filename_format s = true ↔
      (s.length = 19 ∧ s.take 7 = pstr "sales_q" ∧ s.getD 8 ' ' = '_' ∧
       s.getD 13 ' ' = '_' ∧ s.drop 15 = pstr ".csv")) ∧
    (is_valid_filename_format s = true →
      get_region_code s = [lowerChar (s.getD 14 ' ')]) ∧
    (is_valid_filename_format s = false → get_region_code s = pstr "INVALID") ∧
    get_region_code (pstr "sales_q1_2021_w.csv") = pstr "w" ∧
    is_valid_filename_format (pstr "sales_q1_2021_ww.csv") = false ∧
    is_valid_filename_format (pstr "region1") = false := by
  have hNC1 : NAMING_CONVENTION.length = 19 := by decide
  have hNC2 : NAMING_CONVENTION.take 7 = pstr "sales_q" := by decide
  have hNC3 : NAMING_CONVENTION.getD 8 ' ' = '_' := by decide
  have hNC4 : NAMING_CONVENTION.getD (NAMING_CONVENTION.length - 6) ' ' = '_' := by decide
  have hNC5 : NAMING_CONVENTION.drop (NAMING_CONVENTION.length - 4) = pstr ".csv" := by decide
  have hiff : is_valid_filename_format s = true ↔
      (s.length = 19 ∧ s.take 7 = pstr "sales_q" ∧ s.getD 8 ' ' = '_' ∧
       s.getD 13 ' ' = '_' ∧ s.drop 15 = pstr ".csv") := by
    simp only [is_valid_filename_format, hNC1, hNC2, hNC3, hNC4, hNC5,
      Bool.and_eq_true, beq_iff_eq]
    constructor
    · rintro ⟨⟨⟨⟨hl, h7⟩, h8⟩, h13⟩, hd⟩
      rw [hl, show (19 : Nat) - 4 = 15 from rfl] at hd
      exact ⟨hl, h7, h8, h13, hd⟩
    · rintro ⟨hl, h7, h8, h13, hd⟩
      refine ⟨⟨⟨⟨hl, h7⟩, h8⟩, h13⟩, ?_⟩
      rw [hl, show (19 : Nat) - 4 = 15 from rfl]
      exact hd
  refine ⟨hiff, ?_, ?_, by decide, by decide, by decide⟩
  · intro hv
    have hlen : s.length = 19 := (hiff.mp hv).1
    simp only [get_region_code, hv, if_true, hlen, show (19 : Nat) - 5 = 14 from rfl]
  · intro hv
    simp [get_region_code, hv]

/-- Witness for C6 at a concrete input: the valid filename of the spec example. -/
theorem C6_filename_shape_and_region_code_witness :
    is_valid_filename_format (pstr "sales_q1_2021_w.csv") = true ∧
    get_region_code (pstr "sales_q1_2021_w.csv") =
      [lowerChar ((pstr "sales_q1_2021_w.csv").getD 14 ' ')] :=
  ⟨by decide,
   (C6_filename_shape_and_region_code (pstr "sales_q1_2021_w.csv")).2.1 (by decide)⟩

/-- ASCII whitespace for Python `str.strip()` / number parsing
(space, tab, newline, carriage return). -/
def isWsCh (c : Char) : Bool := c == ' ' || c == '\t' || c == '\n' || c == '\r'

/-- Model of Python `str.strip()`. -/
def stripWs (s : PyStr) : PyStr :=
  ((s.dropWhile isWsCh).reverse.dropWhile isWsCh).reverse

/-- Helper for `pySplit`: accumulates the current field (reversed). -/
def pySplitAux (c : Char) : PyStr → PyStr → List PyStr
  | [], acc => [acc.reverse]
  | a :: r, acc =>
    if a == c then acc.reverse :: pySplitAux c r [] else pySplitAux c r (a :: acc)

/-- Model of Python `str.split(sep)` for a one-character separator. -/
def pySplit (c : Char) (s : PyStr) : List PyStr := pySplitAux c s []

/-- Model of Python `str.splitlines()` for contents whose only line break is
`\n` (the only break this program ever writes). -/
def pySplitlines (s : PyStr) : List PyStr :=
  if s.isEmpty then []
  else if s.getLast? == some '\n' then (pySplit '\n' s).dropLast
  else pySplit '\n' s

/-- Python slice `s[a:b]` (for `0 ≤ a ≤ b`). -/
def pySlice (s : PyStr) (a b : Nat) : PyStr := (s.take b).drop a

/-- An all-digit string parsed as a nonnegative integer, `none` otherwise. -/
def parseUnsignedNat (s : PyStr) : Option Nat :=
  if strIsdigit s then some (digitsToNat s) else none

/-- An optionally signed all-digit string parsed as an integer
(the grammar of Python `int()` after stripping). -/
def parseSignedInt (s : PyStr) : Option Int :=
  match s with
  | [] => none
  | c :: r =>
    if c == '+' then (parseUnsignedNat r).map Int.ofNat
    else if c == '-' then (parseUnsignedNat r).map (fun n => -(Int.ofNat n))
    else (parseUnsignedNat (c :: r)).map Int.ofNat

/-- Mantissa of a Python float literal — `digits`, `digits.digits?` or
`.digits`, with at least one digit overall — as an exact
numerator/denominator pair (denominator a power of ten). -/
def mantissaParts (s : PyStr) : Option (Nat × Nat) :=
  match pySplit '.' s with
  | [ip] => (parseUnsignedNat ip).map (fun n => (n, 1))
  | [ip, fp] =>
    if (ip.all isDigitCh && fp.all isDigitCh) && (!ip.isEmpty || !fp.isEmpty) then
      some (digitsToNat ip * 10 ^ fp.length + digitsToNat fp, 10 ^ fp.length)
    else none
  | _ => none

/-- Unsigned part of a Python float literal, with an optional exponent
applied, as an exact numerator/denominator pair. -/
def pyFloatParts (s : PyStr) : Option (Nat × Nat) :=
  match pySplit 'e' (s.map (fun c => if c == 'E' then 'e' else c)) with
  | [m] => mantissaParts m
  | [m, ex] =>
    match mantissaParts m, parseSignedInt ex with
    | some nd, some (Int.ofNat k) => some (nd.1 * 10 ^ k, nd.2)
    | some nd, some (Int.negSucc k) => some (nd.1, nd.2 * 10 ^ (k + 1))
    | _, _ => none
  | _ => none

/-- Model of Python `float(str)`: surrounding whitespace, optional sign,
decimal mantissa, optional exponent.  Floats are idealised as exact
rationals; the `inf`/`nan` literal forms and digit-group underscores,
which this program's data never uses, are outside the model. -/
def pyFloat (s : PyStr) : Option ℚ :=
  match stripWs s with
  | '+' :: r => (pyFloatParts r).map (fun nd => mkRat (nd.1 : Int) nd.2)
  | '-' :: r => (pyFloatParts r).map (fun nd => mkRat (-(nd.1 : Int)) nd.2)
  | t => (pyFloatParts t).map (fun nd => mkRat (nd.1 : Int) nd.2)

/-- Model of Python `int(str)`. -/
def pyInt (s : PyStr) : Option Int := parseSignedInt (stripWs s)

/-- A sales amount as stored in a record: a float, or the `"?"` bad-sentinel
written by `correct_data_types`. -/
inductive Amt where
  | f (value : ℚ)
  | bad
deriving DecidableEq

/-- The `"?"` bad-sentinel string. -/
def qmark : PyStr := pstr "?"

/-- A sales record `{"amount": .., "sales_date": .., "region": ..}`. -/
structure SalesRecord where
  amount : Amt
  sales_date : PyStr
  region : PyStr
deriving DecidableEq

/-- `has_bad_amount` from the source: `data["amount"] == "?"`
(a float never equals the string `"?"`). -/
def has_bad_amount (data : SalesRecord) : Bool := data.amount == Amt.bad

/-- `has_bad_date` from the source: `data["sales_date"] == "?"`. -/
def has_bad_date (data : SalesRecord) : Bool := data.sales_date == qmark

/-- `has_bad_data` from the source. -/
def has_bad_data (data : SalesRecord) : Bool :=
  has_bad_amount data || has_bad_date data

/-- `float()` applied to a string: raises `ValueError` exactly when the
literal does not parse. -/
def pyFloatE (s : PyStr) : Except PyErr ℚ :=
  match pyFloat s with
  | some q => .ok q
  | none => .error .valueError

/-- The amount half of `correct_data_types`:
`try: row[0] = float(row[0]) except ValueError: row[0] = "?"`. -/
def cdtAmount (s : PyStr) : Except PyErr Amt :=
  match pyFloatE s with
  | .ok q => .ok (Amt.f q)
  | .error .valueError => .ok Amt.bad
  | .error e => .error e

/-- Python direct indexing `s[i]` for `i ≥ 0`: raises `IndexError` when out
of range. -/
def pyGetCh (s : PyStr) (i : Nat) : Except PyErr Char :=
  match s[i]? with
  | some c => .ok c
  | none => .error .indexError

/-- The short-circuited shape condition of `correct_data_types`:
`len(row[1]) == 10 and row[1][4] == '-' and row[1][7] == '-' and
row[1][:4].isdigit() and row[1][5:7].isdigit() and row[1][8:10].isdigit()`,
with the direct index accesses as explicit raise points. -/
def checkDateShape (d : PyStr) : Except PyErr Bool :=
  if d.length == 10 then
    match pyGetCh d 4 with
    | .error e => .error e
    | .ok c4 =>
      if c4 == '-' then
        match pyGetCh d 7 with
        | .error e => .error e
        | .ok c7 =>
          if c7 == '-' then
            .ok (strIsdigit (pySlice d 0 4) && strIsdigit (pySlice d 5 7) &&
                 strIsdigit (pySlice d 8 10))
          else .ok false
      else .ok false
  else .ok false

/-- The local `yyyy` of `correct_data_types`: `int(row[1][:4])`. -/
def dateYY (d : PyStr) : Int := (digitsToNat (pySlice d 0 4) : Int)

/-- The local `mm` of `correct_data_types`: `int(row[1][5:7])`. -/
def dateMM (d : PyStr) : Int := (digitsToNat (pySlice d 5 7) : Int)

/-- The local `dd` of `correct_data_types`: `int(row[1][8:10])`. -/
def dateDD (d : PyStr) : Int := (digitsToNat (pySlice d 8 10) : Int)

/-- The date half of `correct_data_types`. -/
def cdtDate (d : PyStr) : Except PyErr PyStr :=
  match checkDateShape d with
  | .error e => .error e
  | .ok shape =>
    if shape then
      if ¬(1 ≤ dateMM d ∧ dateMM d ≤ 12) ∨
         ¬(1 ≤ dateDD d ∧ dateDD d ≤ cal_max_day (dateYY d) (dateMM d)) then
        .ok qmark
      else .ok d
    else .ok qmark

/-- `correct_data_types` from the source (identical in both modules),
on a two-string-field row. -/
def correct_data_types (row : PyStr × PyStr) : Except PyErr (Amt × PyStr) :=
  match cdtAmount row.1 with
  | .error e => .error e
  | .ok a =>
    match cdtDate row.2 with
    | .error e => .error e
    | .ok d => .ok (a, d)

/-- The date-shape test of `correct_data_types` as a pure predicate: length
10, hyphens at positions 4 and 7, all-digit year/month/day substrings. -/
def dateShapeOk (d : PyStr) : Bool :=
  d.length == 10 && d.getD 4 ' ' == '-' && d.getD 7 ' ' == '-' &&
  strIsdigit (pySlice d 0 4) && strIsdigit (pySlice d 5 7) &&
  strIsdigit (pySlice d 8 10)

/-- The month/day range test of `correct_data_types`: month in [1,12] and day
in [1, cal_max_day]. -/
def dateInRange (d : PyStr) : Bool :=
  decide (1 ≤ dateMM d) && decide (dateMM d ≤ 12) &&
  decide (1 ≤ dateDD d) && decide (dateDD d ≤ cal_max_day (dateYY d) (dateMM d))

/-- §4.1 `isValidDateString`, following the spec words: the shape and range
tests plus year in [2000, 2999]. -/
def isValidDateStringSpec (d : PyStr) : Bool :=
  dateShapeOk d && dateInRange d &&
  decide (2000 ≤ dateYY d) && decide (dateYY d ≤ 2999)

/-- The value `correct_data_types` stores in the amount field. -/
def amountCoercionSpec (s : PyStr) : Amt :=
  match pyFloat s with
  | some q => Amt.f q
  | none => Amt.bad

/-- The value `correct_data_types` stores in the date field. -/
def dateCoercionSpec (d : PyStr) : PyStr :=
  if dateShapeOk d && dateInRange d then d else qmark

lemma pyGetCh_ok (s : PyStr) (i : Nat) (h : i < s.length) :
    pyGetCh s i = .ok (s.getD i ' ') := by
  unfold pyGetCh
  rw [List.getElem?_eq_getElem h, List.getD_eq_getElem _ _ h]

lemma checkDateShape_eq (d : PyStr) : checkDateShape d = .ok (dateShapeOk d) := by
  unfold checkDateShape dateShapeOk
  by_cases hl : d.length = 10
  · have h4 : (4 : Nat) < d.length := by omega
    have h7 : (7 : Nat) < d.length := by omega
    rw [if_pos (by simpa using hl), pyGetCh_ok _ _ h4]
    by_cases hc4 : d[4] = '-'
    · rw [List.getD_eq_getElem _ _ h4]
      by_cases hc7 : d[7] = '-'
      · simp [pyGetCh_ok _ _ h7, List.getD_eq_getElem _ _ h7, hl, hc4, hc7,
          Bool.and_assoc]
      · simp [pyGetCh_ok _ _ h7, List.getD_eq_getElem _ _ h7, hl, hc4, hc7]
    · rw [List.getD_eq_getElem _ _ h4]
      simp [hl, hc4, List.getD_eq_getElem _ _ h4]
  · rw [if_neg (by simpa using hl)]
    simp [hl]

lemma cdtDate_eq (d : PyStr) : cdtDate d = .ok (dateCoercionSpec d) := by
  unfold cdtDate dateCoercionSpec
  rw [checkDateShape_eq]
  by_cases hs : dateShapeOk d = true
  · simp only [hs, if_true]
    by_cases hr : dateInRange d = true
    · have hnot : ¬(¬(1 ≤ dateMM d ∧ dateMM d ≤ 12) ∨
          ¬(1 ≤ dateDD d ∧ dateDD d ≤ cal_max_day (dateYY d) (dateMM d))) := by
        simp only [dateInRange, Bool.and_eq_true, decide_eq_true_eq] at hr
        tauto
      simp only [hr, Bool.and_true]
      rw [if_neg hnot]
      simp
    · have hor : (¬(1 ≤ dateMM d ∧ dateMM d ≤ 12) ∨
          ¬(1 ≤ dateDD d ∧ dateDD d ≤ cal_max_day (dateYY d) (dateMM d))) := by
        simp only [dateInRange, Bool.and_eq_true, decide_eq_true_eq] at hr
        tauto
      simp only [Bool.not_eq_true] at hr
      simp only [hr, Bool.and_false]
      rw [if_pos hor]
      simp
  · simp only [Bool.not_eq_true] at hs
    simp [hs]

lemma correct_data_types_eq (row : PyStr × PyStr) :
    correct_data_types row = .ok (amountCoercionSpec row.1, dateCoercionSpec row.2) := by
  unfold correct_data_types cdtAmount pyFloatE amountCoercionSpec
  cases hp : pyFloat row.1 <;> simp [cdtDate_eq]

deriving instance DecidableEq for Except

/-- C7: on a two-string-field row, `correct_data_types` never raises; a
non-parsing amount becomes the `"?"` sentinel (never the float 0), a parsing
amount becomes its float value, a date passing the shape and range checks is
kept verbatim, and any other date becomes `"?"`. -/
theorem C7_coercion_total_and_marks (a d : PyStr) :
    correct_data_types (a, d) = .ok (amountCoercionSpec a, dateCoercionSpec d) ∧
    (pyFloat a = none → amountCoercionSpec a = Amt.bad ∧ amountCoercionSpec a ≠ Amt.f 0) ∧
    (∀ q : ℚ, pyFloat a = some q → amountCoercionSpec a = Amt.f q) ∧
    ((dateShapeOk d && dateInRange d) = true → dateCoercionSpec d = d) ∧
    (¬((dateShapeOk d && dateInRange d) = true) → dateCoercionSpec d = qmark) := by
  refine ⟨correct_data_types_eq (a, d), ?_, ?_, ?_, ?_⟩
  · intro h
    unfold amountCoercionSpec
    rw [h]
    exact ⟨rfl, by simp⟩
  · intro q h
    unfold amountCoercionSpec
    rw [h]
  · intro h
    unfold dateCoercionSpec
    rw [if_pos h]
  · intro h
    unfold dateCoercionSpec
    rw [if_neg h]

/-- Witness for C7 at the spec's concrete rows: `("abc", "2024-02-30")` gets
both sentinels (Feb 30 is invalid even in a leap year); `("150.00",
"2024-02-29")` is fully valid and kept. -/
theorem C7_coercion_total_and_marks_witness :
    correct_data_types (pstr "abc", pstr "2024-02-30") = .ok (Amt.bad, qmark) ∧
    correct_data_types (pstr "150.00", pstr "2024-02-29") =
      .ok (Amt.f 150, pstr "2024-02-29") := by
  constructor
  · rw [(C7_coercion_total_and_marks (pstr "abc") (pstr "2024-02-30")).1]
    decide
  · rw [(C7_coercion_total_and_marks (pstr "150.00") (pstr "2024-02-29")).1]
    decide

/-- C4 counterexample: the syntactically well-formed date `"1999-05-10"`
fails §4.1 (its year is below 2000), yet `correct_data_types` keeps it
verbatim instead of marking it with the bad-sentinel. -/
theorem C4_counterexample_year_not_checked :
    correct_data_types (pstr "100.0", pstr "1999-05-10") =
      .ok (Amt.f 100, pstr "1999-05-10") ∧
    isValidDateStringSpec (pstr "1999-05-10") = false ∧
    pstr "1999-05-10" ≠ qmark := by
  refine ⟨?_, by decide, by decide⟩
  rw [correct_data_types_eq]
  decide

/-- C4 amended: `correct_data_types` marks the date field with the
bad-sentinel exactly when the date string fails the length-10 /
hyphens-at-4-and-7 / all-digits shape test or the month-in-[1,12] /
day-in-[1,cal_max_day] range test; the year range [2000,2999] of §4.1 is not
checked. -/
theorem C4_date_marking_amended (a d : PyStr) :
    ∃ amt res, correct_data_types (a, d) = .ok (amt, res) ∧
      (res = qmark ↔ (dateShapeOk d && dateInRange d) = false) ∧
      ((dateShapeOk d && dateInRange d) = true → res = d) := by
  refine ⟨amountCoercionSpec a, dateCoercionSpec d, correct_data_types_eq (a, d), ?_, ?_⟩
  · unfold dateCoercionSpec
    by_cases hs : (dateShapeOk d && dateInRange d) = true
    · rw [if_pos hs]
      have hlen : d.length = 10 := by
        have h1 : dateShapeOk d = true := by
          rcases Bool.and_eq_true_iff.mp hs with ⟨h1, _⟩
          exact h1
        unfold dateShapeOk at h1
        simp only [Bool.and_eq_true, beq_iff_eq] at h1
        exact h1.1.1.1.1.1
      constructor
      · intro hq
        rw [hq] at hlen
        simp [qmark, pstr] at hlen
      · intro hq
        rw [hs] at hq
        cases hq
    · rw [if_neg hs]
      simp only [Bool.not_eq_true] at hs
      exact ⟨fun _ => hs, fun _ => rfl⟩
  · intro hs
    unfold dateCoercionSpec
    rw [if_pos hs]

/-- Witness for C4's amended claim at a concrete input: `"1999-05-10"` passes
the shape and range tests, so it is kept. -/
theorem C4_date_marking_amended_witness :
    ∃ amt res, correct_data_types (pstr "100.0", pstr "1999-05-10") = .ok (amt, res) ∧
      res = pstr "1999-05-10" := by
  obtain ⟨amt, res, heq, _, hkeep⟩ :=
    C4_date_marking_amended (pstr "100.0") (pstr "1999-05-10")
  exact ⟨amt, res, heq, hkeep (by decide)⟩

/-- `float()` applied to a record's amount field: the identity on a float,
`ValueError` on the `"?"` sentinel string. -/
def float_of_amt : Amt → Except PyErr ℚ
  | .f q => .ok q
  | .bad => .error .valueError

/-- Python list indexing, raising `IndexError` when out of range. -/
def pyListGet (l : List PyStr) (i : Nat) : Except PyErr PyStr :=
  match l[i]? with
  | some x => .ok x
  | none => .error .indexError

/-- `int()` applied to a string: `ValueError` when it does not parse. -/
def pyIntE (s : PyStr) : Except PyErr Int :=
  match pyInt s with
  | some n => .ok n
  | none => .error .valueError

/-- The month computation `int(sales_date.split('-')[1])` of `view_sales`. -/
def view_month (d : PyStr) : Except PyErr Int :=
  match pyListGet (pySplit '-' d) 1 with
  | .error e => .error e
  | .ok p => pyIntE p

/-- The `if has_bad_date(sales): month = 0 else: month = int(...)` block of
`view_sales` (identical in both modules). -/
def view_month_or_zero (r : SalesRecord) : Except PyErr Int :=
  if has_bad_date r then .ok 0 else view_month r.sales_date

/-- The per-record loop of the g08 `view_sales`: the flag is or-ed with
`has_bad_data`, then `amount = float(sales['amount'])` is computed
unconditionally (raising on the `"?"` sentinel) and added to the total,
then the month is computed for the quarter column. -/
def view_fold_g08 : List SalesRecord → Bool → ℚ → Except PyErr (Bool × ℚ)
  | [], flag, total => .ok (flag, total)
  | r :: rest, flag, total =>
    match float_of_amt r.amount with
    | .error e => .error e
    | .ok a =>
      match view_month_or_zero r with
      | .error e => .error e
      | .ok _month => view_fold_g08 rest (flag || has_bad_data r) (total + a)

/-- `view_sales` from the g08 module: the returned flag paired with the
printed running total. -/
def view_sales_g08 (sales_list : List SalesRecord) : Except PyErr (Bool × ℚ) :=
  if sales_list.length = 0 then .ok (false, 0)
  else view_fold_g08 sales_list false 0

/-- The per-record loop of the beg `view_sales`: the amount is added to the
total only when it is a float (the `isinstance` guard); a `"?"` amount is
displayed but not summed. -/
def view_fold_beg : List SalesRecord → Bool → ℚ → Except PyErr (Bool × ℚ)
  | [], flag, total => .ok (flag, total)
  | r :: rest, flag, total =>
    match view_month_or_zero r with
    | .error e => .error e
    | .ok _month =>
      view_fold_beg rest (flag || has_bad_data r)
        (match r.amount with
         | .f q => total + q
         | .bad => total)

/-- `view_sales` from the beg module: the returned flag paired with the
printed running total. -/
def view_sales_beg (sales_list : List SalesRecord) : Except PyErr (Bool × ℚ) :=
  if sales_list.length = 0 then .ok (false, 0)
  else view_fold_beg sales_list false 0

/-- Concrete record: amount 100.0, a valid date, region West. -/
def exR1 : SalesRecord := ⟨Amt.f 100, pstr "2021-01-15", pstr "West"⟩

/-- Concrete record: the `"?"` bad amount, a valid date, region West. -/
def exRb : SalesRecord := ⟨Amt.bad, pstr "2021-01-15", pstr "West"⟩

/-- Concrete record: amount 50.0, a valid date, region West. -/
def exR2 : SalesRecord := ⟨Amt.f 50, pstr "2021-01-15", pstr "West"⟩

/-- C3: on the spec's reporting example — records [(100.0, valid date),
(bad amount, valid date), (50.0, valid date)] — the claimed behaviour (total
150.0, flag true) is produced by the beg `view_sales`, but the g08
`view_sales` instead raises `ValueError` when `float()` meets the `"?"`
amount, so the g08 copy satisfies neither the total nor the returned flag. -/
theorem C3_view_sales_on_bad_amount :
    view_sales_g08 [exR1, exRb, exR2] = .error .valueError ∧
    view_sales_beg [exR1, exRb, exR2] = .ok (true, 150) := by
  constructor
  · rfl
  · have h : view_sales_beg [exR1, exRb, exR2] = .ok (true, 0 + 100 + 50) := rfl
    rw [h]
    norm_num

lemma view_fold_equiv : ∀ (l : List SalesRecord) (flag : Bool) (total : ℚ),
    (∀ r ∈ l, r.amount ≠ Amt.bad) →
    view_fold_g08 l flag total = view_fold_beg l flag total
  | [], flag, total, _ => rfl
  | r :: rest, flag, total, h => by
    have hr : r.amount ≠ Amt.bad := h r (List.mem_cons_self r rest)
    have hrest : ∀ x ∈ rest, x.amount ≠ Amt.bad :=
      fun x hx => h x (List.mem_cons_of_mem r hx)
    cases ha : r.amount with
    | bad => exact absurd ha hr
    | f q =>
      simp only [view_fold_g08, view_fold_beg, ha, float_of_amt]
      cases hm : view_month_or_zero r with
      | error e => rfl
      | ok mo => exact view_fold_equiv rest _ _ hrest

/-- C10 counterexample: on the single-record list whose amount is the
bad-sentinel, the g08 `view_sales` raises `ValueError` while the beg
`view_sales` returns normally with flag true — the two copies are not
equivalent. -/
theorem C10_counterexample_not_equivalent :
    view_sales_g08 [exRb] = .error .valueError ∧
    view_sales_beg [exRb] = .ok (true, 0) ∧
    view_sales_g08 [exRb] ≠ view_sales_beg [exRb] := by
  refine ⟨rfl, rfl, ?_⟩
  intro hc
  rw [show view_sales_g08 [exRb] = .error .valueError from rfl,
      show view_sales_beg [exRb] = .ok (true, 0) from rfl] at hc
  cases hc

/-- C10 amended: the two `view_sales` copies are equivalent — same raising
behaviour, same returned flag and same running total — on every sales list in
which no record carries the bad-amount sentinel; on lists with a bad-sentinel
amount they diverge (see the counterexample). -/
theorem C10_view_sales_equivalence_amended (l : List SalesRecord)
    (h : ∀ r ∈ l, r.amount ≠ Amt.bad) :
    view_sales_g08 l = view_sales_beg l := by
  unfold view_sales_g08 view_sales_beg
  by_cases hl : l.length = 0
  · rw [if_pos hl, if_pos hl]
  · rw [if_neg hl, if_neg hl]
    exact view_fold_equiv l false 0 h

/-- Witness for C10's amended claim at a concrete input: a two-record list
with float amounts, on which both copies return the same value. -/
theorem C10_view_sales_equivalence_amended_witness :
    view_sales_g08 [exR1, exR2] = view_sales_beg [exR1, exR2] :=
  C10_view_sales_equivalence_amended [exR1, exR2] (by decide)

/-- `Path.name`: the base name (last `/`-separated component) of a path. -/
def pathName (p : PyStr) : PyStr := (pySplit '/' p).getLastD []

/-- `already_imported` from the g08 module: opens the `IMPORTED_FILES` ledger
unconditionally, so a missing ledger file raises `FileNotFoundError`.  The
`ledger` argument is the content of the ledger file, `none` when the file
does not exist. -/
def already_imported_g08 (filepath_name : PyStr) (ledger : Option PyStr) :
    Except PyErr Bool :=
  match ledger with
  | none => .error .fileNotFound
  | some content =>
    .ok ((pySplitlines content).contains (pathName filepath_name))

/-- `already_imported` from the beg module: the read is wrapped in
`try/except FileNotFoundError`, returning `False` when the ledger file does
not exist. -/
def already_imported_beg (filepath_name : PyStr) (ledger : Option PyStr) : Bool :=
  match ledger with
  | none => false
  | some content => (pySplitlines content).contains (pathName filepath_name)

/-- `add_imported_file` (identical in both modules): appends
`f"{filepath_name.name}\n"` to the ledger file, creating it when absent. -/
def add_imported_file (filepath_name : PyStr) (ledger : Option PyStr) : Option PyStr :=
  some ((ledger.getD []) ++ pathName filepath_name ++ ['\n'])

/-- C5: when the ledger file does not exist, the g08 `already_imported`
raises `FileNotFoundError` instead of returning false — only the beg copy
returns false as claimed; when the ledger exists, both return true exactly
when the path's base name appears as a line of it. -/
theorem C5_already_imported_missing_ledger (p : PyStr) :
    already_imported_g08 p none = .error .fileNotFound ∧
    already_imported_beg p none = false ∧
    (∀ content : PyStr,
      already_imported_g08 p (some content) =
        .ok ((pySplitlines content).contains (pathName p)) ∧
      already_imported_beg p (some content) =
        (pySplitlines content).contains (pathName p)) :=
  ⟨rfl, rfl, fun _ => ⟨rfl, rfl⟩⟩

/-- Digit characters of `n`, most significant first (fuel-bounded helper). -/
def natToStrAux : Nat → Nat → PyStr
  | 0, _ => []
  | fuel + 1, n =>
    if n < 10 then [Char.ofNat ('0'.toNat + n)]
    else natToStrAux fuel (n / 10) ++ [Char.ofNat ('0'.toNat + n % 10)]

/-- Decimal numeral of a natural number. -/
def natToStr (n : Nat) : PyStr := natToStrAux (n + 1) n

/-- Fractional digits of `r / den` by long division (fuel-bounded). -/
def fracDigits : Nat → Nat → Nat → PyStr
  | 0, _, _ => []
  | _, 0, _ => []
  | fuel + 1, r, den =>
    Char.ofNat ('0'.toNat + (r * 10) / den) :: fracDigits fuel ((r * 10) % den) den

/-- Model of Python `str()` of a float: sign, integer part, `.`, and at least
one fractional digit — the exact decimal expansion of the value.  For every
amount this program stores (a finite decimal), this is the numeral that
`float()` parses back to the same value.  The fuel bound 1100 exceeds the
longest decimal expansion of any IEEE double. -/
def floatToStr (q : ℚ) : PyStr :=
  (if q.num < 0 then ['-'] else []) ++
  natToStr (q.num.natAbs / q.den) ++ ['.'] ++
  (if q.num.natAbs % q.den = 0 then ['0'] else fracDigits 1100 (q.num.natAbs % q.den) q.den)

/-- The string the csv writer puts in the amount column: `str()` of the
record's amount value. -/
def amtToStr : Amt → PyStr
  | .f q => floatToStr q
  | .bad => qmark

/-- `save_all_sales` from the source: each record becomes the csv row
`[amount, sales_date, region]` (the region cell holds the record's full
region name). -/
def save_all_sales (sales_list : List SalesRecord) : List (List PyStr) :=
  sales_list.map (fun sale => [amtToStr sale.amount, sale.sales_date, sale.region])

/-- `import_all_sales` from the source, on the list of csv rows of the
`ALL_SALES` file: rows with fewer than three fields are skipped; a row with
exactly three fields is loaded as `float(amount.strip())`,
`sales_date.strip()`, `get_region_name(region_code.strip())`; unpacking a row
with more than three fields raises `ValueError`. -/
def import_all_sales : List (List PyStr) → Except PyErr (List SalesRecord)
  | [] => .ok []
  | row :: rest =>
    if row.length < 3 then import_all_sales rest
    else
      match row with
      | [amount, sales_date, region_code] =>
        match pyFloatE (stripWs amount) with
        | .error e => .error e
        | .ok q =>
          match import_all_sales rest with
          | .error e => .error e
          | .ok l =>
            .ok (⟨Amt.f q, stripWs sales_date, get_region_name (stripWs region_code)⟩ :: l)
      | _ => .error .valueError

/-- C1: the flat-file round trip is broken on the region field.
`save_all_sales` writes the full region name ("West") into the third column,
but `import_all_sales` feeds that column to `get_region_name`, which expects
a one-letter code and returns "INVALID" for "West".  At the concrete clean
record (100.0, "2021-01-15", "West"), the amount and the date reload equal,
the region reloads as "INVALID" ≠ "West". -/
theorem C1_roundtrip_region_bug :
    save_all_sales [⟨Amt.f 100, pstr "2021-01-15", pstr "West"⟩] =
      [[pstr "100.0", pstr "2021-01-15", pstr "West"]] ∧
    import_all_sales (save_all_sales [⟨Amt.f 100, pstr "2021-01-15", pstr "West"⟩]) =
      .ok [⟨Amt.f 100, pstr "2021-01-15", pstr "INVALID"⟩] ∧
    pstr "INVALID" ≠ pstr "West" := by
  refine ⟨by decide, by decide, by decide⟩

lemma digit_char_facts {c : Char} (h : isDigitCh c = true) :
    (c == '-') = false ∧ (c == '+') = false ∧ isWsCh c = false := by
  simp only [isDigitCh, Bool.and_eq_true, decide_eq_true_eq] at h
  have h0 : '0' ≤ c := h.1
  refine ⟨?_, ?_, ?_⟩
  · simp only [beq_eq_false_iff_ne, ne_eq]
    intro hc
    subst hc
    exact absurd h0 (by decide)
  · simp only [beq_eq_false_iff_ne, ne_eq]
    intro hc
    subst hc
    exact absurd h0 (by decide)
  · by_contra hws
    simp only [Bool.not_eq_false, isWsCh, Bool.or_eq_true, beq_iff_eq] at hws
    rcases hws with ((hc | hc) | hc) | hc <;> subst hc <;> exact absurd h0 (by decide)

lemma list_length_ten (d : PyStr) (h : d.length = 10) :
    ∃ a0 a1 a2 a3 a4 a5 a6 a7 a8 a9 : Char,
      d = [a0, a1, a2, a3, a4, a5, a6, a7, a8, a9] := by
  rcases d with _ | ⟨a0, d⟩; · simp at h
  rcases d with _ | ⟨a1, d⟩; · simp at h
  rcases d with _ | ⟨a2, d⟩; · simp at h
  rcases d with _ | ⟨a3, d⟩; · simp at h
  rcases d with _ | ⟨a4, d⟩; · simp at h
  rcases d with _ | ⟨a5, d⟩; · simp at h
  rcases d with _ | ⟨a6, d⟩; · simp at h
  rcases d with _ | ⟨a7, d⟩; · simp at h
  rcases d with _ | ⟨a8, d⟩; · simp at h
  rcases d with _ | ⟨a9, d⟩; · simp at h
  rcases d with _ | ⟨a10, d⟩
  · exact ⟨a0, a1, a2, a3, a4, a5, a6, a7, a8, a9, rfl⟩
  · simp at h

lemma view_month_ok_of_shape (d : PyStr) (h : dateShapeOk d = true) :
    ∃ m : Int, view_month d = .ok m := by
  have hlen : d.length = 10 := by
    simp only [dateShapeOk, Bool.and_eq_true, beq_iff_eq] at h
    exact h.1.1.1.1.1
  obtain ⟨a0, a1, a2, a3, a4, a5, a6, a7, a8, a9, rfl⟩ := list_length_ten d hlen
  simp only [dateShapeOk, pySlice, strIsdigit, Bool.and_eq_true, beq_iff_eq,
    List.take_succ_cons, List.take_zero, List.drop_succ_cons, List.drop_zero,
    List.getD_cons_zero, List.getD_cons_succ, List.all_cons, List.all_nil,
    List.isEmpty_cons, Bool.not_false, Bool.true_and, Bool.and_true] at h
  obtain ⟨⟨⟨⟨⟨-, h4⟩, h7⟩, hd0, hd1, hd2, hd3⟩, hd5, hd6⟩, hd8, hd9⟩ := h
  refine ⟨(digitsToNat [a5, a6] : Int), ?_⟩
  simp [view_month, pySplit, pySplitAux, pyListGet, pyIntE, pyInt, stripWs,
    parseSignedInt, parseUnsignedNat, strIsdigit,
    h4, h7, (digit_char_facts hd0).1, (digit_char_facts hd1).1,
    (digit_char_facts hd2).1, (digit_char_facts hd3).1,
    (digit_char_facts hd5).1, (digit_char_facts hd5).2.1,
    (digit_char_facts hd5).2.2, (digit_char_facts hd6).1,
    (digit_char_facts hd6).2.2, (digit_char_facts hd8).1,
    (digit_char_facts hd9).1, hd5, hd6]

/-- The in-memory sales list together with the imported-files ledger file
content (`none` when the ledger file does not exist). -/
structure ImpState where
  sales : List SalesRecord
  ledger : Option PyStr
deriving DecidableEq

/-- The record built by the path overload of `import_sales` for one coerced
row, tagged with the region name derived from the filename. -/
def coercedRecord (filename : PyStr) (row : PyStr × PyStr) : SalesRecord :=
  ⟨amountCoercionSpec row.1, dateCoercionSpec row.2,
   get_region_name (get_region_code filename)⟩

/-- The path-argument overload of `import_sales` (identical in both modules):
applies `correct_data_types` to every row of the file and tags each record
with the region name derived from the filename. -/
def import_from_path (filename : PyStr) : List (PyStr × PyStr) → Except PyErr (List SalesRecord)
  | [] => .ok []
  | row :: rest =>
    match correct_data_types row with
    | .error e => .error e
    | .ok (a, d) =>
      match import_from_path filename rest with
      | .error e => .error e
      | .ok l => .ok (⟨a, d, get_region_name (get_region_code filename)⟩ :: l)

lemma import_from_path_eq (filename : PyStr) (rows : List (PyStr × PyStr)) :
    import_from_path filename rows = .ok (rows.map (coercedRecord filename)) := by
  induction rows with
  | nil => rfl
  | cons row rest ih =>
    simp only [import_from_path, correct_data_types_eq, ih, List.map_cons]
    rfl

/-- The state to which Python had mutated the world when an exception stops
`import_sales`, or the final state on normal return. -/
def outState : Except (PyErr × ImpState) ImpState → ImpState
  | .ok st => st
  | .error (_, st) => st

/-- The list-argument (interactive) overload of `import_sales` from the g08
module, for an already-entered filename, the rows of the file at
`FILEPATH/filename` (`none` when that file does not exist) and the current
state.  Errors carry the state at raise time; all mutations
(`sales_list.extend`, `add_imported_file`) happen after the last possible
raise point, exactly as in the source.  The source's
`imported_sales_list is None` branch can never trigger (the path overload
always returns a list) and is omitted. -/
def import_sales_list (filename : PyStr) (fileRows : Option (List (PyStr × PyStr)))
    (st : ImpState) : Except (PyErr × ImpState) ImpState :=
  if !(is_valid_filename_format filename) then .ok st
  else if !(is_valid_region (get_region_code filename)) then .ok st
  else
    match already_imported_g08 filename st.ledger with
    | .error e => .error (e, st)
    | .ok true => .ok st
    | .ok false =>
      match fileRows with
      | none => .error (.fileNotFound, st)
      | some rows =>
        match import_from_path filename rows with
        | .error e => .error (e, st)
        | .ok imported =>
          match view_sales_g08 imported with
          | .error e => .error (e, st)
          | .ok (bad_data_flag, _) =>
            if bad_data_flag then .ok st
            else if imported.length > 0 then
              .ok ⟨st.sales ++ imported, add_imported_file filename st.ledger⟩
            else .ok st

lemma view_fold_g08_flag_mono : ∀ (l : List SalesRecord) (total : ℚ) (b : Bool) (t : ℚ),
    view_fold_g08 l true total = .ok (b, t) → b = true
  | [], total, b, t, h => by
    simp only [view_fold_g08, Except.ok.injEq, Prod.mk.injEq] at h
    exact h.1.symm
  | r :: rest, total, b, t, h => by
    simp only [view_fold_g08] at h
    cases hfa : float_of_amt r.amount with
    | error e =>
      simp only [hfa] at h
      exact Except.noConfusion h
    | ok a =>
      simp only [hfa] at h
      cases hm : view_month_or_zero r with
      | error e =>
        simp only [hm] at h
        exact Except.noConfusion h
      | ok mo =>
        simp only [hm, Bool.true_or] at h
        exact view_fold_g08_flag_mono rest _ b t h

lemma view_fold_g08_bad : ∀ (l : List SalesRecord) (flag : Bool) (total : ℚ),
    (∃ r ∈ l, has_bad_data r = true) →
    (∃ e, view_fold_g08 l flag total = .error e) ∨
    (∃ t, view_fold_g08 l flag total = .ok (true, t))
  | [], flag, total, h => by simp at h
  | r :: rest, flag, total, h => by
    simp only [view_fold_g08]
    cases hfa : float_of_amt r.amount with
    | error e => exact Or.inl ⟨e, rfl⟩
    | ok a =>
      cases hm : view_month_or_zero r with
      | error e => exact Or.inl ⟨e, rfl⟩
      | ok mo =>
        by_cases hr : has_bad_data r = true
        · rw [hr, Bool.or_true]
          cases hres : view_fold_g08 rest true (total + a) with
          | error e => exact Or.inl ⟨e, hres⟩
          | ok p =>
            obtain ⟨b, t⟩ := p
            have hb := view_fold_g08_flag_mono rest (total + a) b t hres
            subst hb
            exact Or.inr ⟨t, hres⟩
        · have hrest : ∃ x ∈ rest, has_bad_data x = true := by
            rcases h with ⟨x, hx, hbad⟩
            rcases List.mem_cons.mp hx with hx1 | hx2
            · subst hx1
              exact absurd hbad hr
            · exact ⟨x, hx2, hbad⟩
          exact view_fold_g08_bad rest _ _ hrest

lemma view_fold_g08_clean : ∀ (l : List SalesRecord) (flag : Bool) (total : ℚ),
    (∀ r ∈ l, has_bad_data r = false) →
    (∀ r ∈ l, ∃ m : Int, view_month_or_zero r = .ok m) →
    ∃ t, view_fold_g08 l flag total = .ok (flag, t)
  | [], flag, total, _, _ => ⟨total, rfl⟩
  | r :: rest, flag, total, hclean, hview => by
    have hr : has_bad_data r = false := hclean r (List.mem_cons_self r rest)
    have hrest1 : ∀ x ∈ rest, has_bad_data x = false :=
      fun x hx => hclean x (List.mem_cons_of_mem r hx)
    have hrest2 : ∀ x ∈ rest, ∃ m : Int, view_month_or_zero x = .ok m :=
      fun x hx => hview x (List.mem_cons_of_mem r hx)
    obtain ⟨q, hq⟩ : ∃ q, r.amount = Amt.f q := by
      cases ha : r.amount with
      | f q => exact ⟨q, rfl⟩
      | bad =>
        have hba : has_bad_data r = true := by
          simp [has_bad_data, has_bad_amount, ha]
        rw [hba] at hr
        cases hr
    obtain ⟨m, hm⟩ := hview r (List.mem_cons_self r rest)
    simp only [view_fold_g08, hq, float_of_amt, hm, hr, Bool.or_false]
    exact view_fold_g08_clean rest flag (total + q) hrest1 hrest2

lemma view_month_or_zero_ok_of_clean (r : SalesRecord)
    (hdate : has_bad_date r = false) (hshape : dateShapeOk r.sales_date = true) :
    ∃ m : Int, view_month_or_zero r = .ok m := by
  obtain ⟨m, hm⟩ := view_month_ok_of_shape r.sales_date hshape
  exact ⟨m, by simp [view_month_or_zero, hdate, hm]⟩

lemma coerced_clean_shape (fn : PyStr) (row : PyStr × PyStr)
    (h : has_bad_data (coercedRecord fn row) = false) :
    dateShapeOk (coercedRecord fn row).sales_date = true := by
  have hd : (coercedRecord fn row).sales_date = dateCoercionSpec row.2 := rfl
  have hnq : dateCoercionSpec row.2 ≠ qmark := by
    intro hc
    have hbd : has_bad_date (coercedRecord fn row) = true := by
      simp [has_bad_date, hd, hc]
    simp [has_bad_data, hbd] at h
  rw [hd]
  unfold dateCoercionSpec at hnq ⊢
  by_cases hs : (dateShapeOk row.2 && dateInRange row.2) = true
  · rw [if_pos hs]
    exact (Bool.and_eq_true _ _ ▸ hs).1
  · rw [if_neg hs] at hnq
    exact absurd rfl hnq

/-- C2: once the interactive import's gating has passed (valid filename
shape, valid region, not already imported) and the file opens, then: if any
coerced row has a bad amount or bad date, the sales collection and the ledger
are left unchanged (whether the rejection is the bad-data message or the
exception raised while rendering, no partial merge occurs); if the batch is
entirely clean and non-empty, every coerced record is appended and the
filename line is appended to the ledger; a clean zero-row file changes
neither. -/
theorem C2_interactive_import_gating (fn : PyStr) (rows : List (PyStr × PyStr))
    (st : ImpState)
    (hfmt : is_valid_filename_format fn = true)
    (hreg : is_valid_region (get_region_code fn) = true)
    (himp : already_imported_g08 fn st.ledger = .ok false) :
    ((∃ r ∈ rows.map (coercedRecord fn), has_bad_data r = true) →
       outState (import_sales_list fn (some rows) st) = st) ∧
    ((∀ r ∈ rows.map (coercedRecord fn), has_bad_data r = false) → rows ≠ [] →
       import_sales_list fn (some rows) st =
         .ok ⟨st.sales ++ rows.map (coercedRecord fn), add_imported_file fn st.ledger⟩) ∧
    (rows = [] → import_sales_list fn (some rows) st = .ok st) := by
  have hbase : import_sales_list fn (some rows) st =
      (match view_sales_g08 (rows.map (coercedRecord fn)) with
       | .error e => .error (e, st)
       | .ok (bad_data_flag, _) =>
         if bad_data_flag then .ok st
         else if (rows.map (coercedRecord fn)).length > 0 then
           .ok ⟨st.sales ++ rows.map (coercedRecord fn), add_imported_file fn st.ledger⟩
         else .ok st) := by
    unfold import_sales_list
    rw [hfmt, hreg, himp]
    simp only [Bool.not_true, Bool.false_eq_true, if_false, import_from_path_eq]
  refine ⟨?_, ?_, ?_⟩
  · intro hbad
    have hne : (rows.map (coercedRecord fn)).length ≠ 0 := by
      rcases hbad with ⟨r, hr, -⟩
      intro hc
      rw [List.length_eq_zero.mp hc] at hr
      cases hr
    have hv := view_fold_g08_bad (rows.map (coercedRecord fn)) false 0 hbad
    rw [hbase]
    unfold view_sales_g08
    rw [if_neg hne]
    rcases hv with ⟨e, he⟩ | ⟨t, ht⟩
    · rw [he]
      rfl
    · rw [ht]
      rfl
  · intro hclean hne
    have hvm : ∀ r ∈ rows.map (coercedRecord fn),
        ∃ m : Int, view_month_or_zero r = .ok m := by
      intro r hr
      obtain ⟨row, hrow, hreq⟩ := List.mem_map.mp hr
      have hdate : has_bad_date r = false := by
        have hx := hclean r hr
        unfold has_bad_data at hx
        cases hbd : has_bad_date r with
        | false => rfl
        | true =>
          rw [hbd, Bool.or_true] at hx
          cases hx
      have hshape : dateShapeOk r.sales_date = true := by
        rw [← hreq]
        exact coerced_clean_shape fn row (by rw [hreq]; exact hclean r hr)
      exact view_month_or_zero_ok_of_clean r hdate hshape
    obtain ⟨t, hok⟩ := view_fold_g08_clean (rows.map (coercedRecord fn)) false 0 hclean hvm
    have hlen : (rows.map (coercedRecord fn)).length ≠ 0 := by
      intro hc
      exact hne (List.map_eq_nil_iff.mp (List.length_eq_zero.mp hc))
    rw [hbase]
    unfold view_sales_g08
    rw [if_neg hlen, hok]
    exact if_pos (Nat.pos_of_ne_zero hlen)
  · intro hrows
    subst hrows
    rw [hbase]
    rfl

/-- Witness for C2 at a concrete input: importing the clean one-row file
`sales_q1_2021_w.csv` into an empty state whose ledger file exists and is
empty appends the coerced record and records the filename. -/
theorem C2_interactive_import_gating_witness :
    import_sales_list (pstr "sales_q1_2021_w.csv")
        (some [(pstr "100.0", pstr "2021-01-15")]) ⟨[], some []⟩ =
      .ok ⟨([] : List SalesRecord) ++
             [(pstr "100.0", pstr "2021-01-15")].map (coercedRecord (pstr "sales_q1_2021_w.csv")),
           add_imported_file (pstr "sales_q1_2021_w.csv") (some [])⟩ :=
  (C2_interactive_import_gating (pstr "sales_q1_2021_w.csv")
      [(pstr "100.0", pstr "2021-01-15")] ⟨[], some []⟩
      (by decide) (by decide) (by decide)).2.1 (by decide) (by decide)
